import Mathlib

/-!
Shallow embedding of the client-side chat session lifecycle of the
robotics-textbook repository: the SessionManager (local-storage backed
session and conversation persistence), the ChatAPI error classification,
and the ChatWidget send/receive state machine.

Modelling conventions:
- JavaScript Date values are modelled by their millisecond time value as
  an `Int`; an Invalid Date (NaN time value) is `none`, so a date is
  `DateVal := Option Int`.  `toISOString` on a valid date yields a string
  that `new Date` parses back to the same millisecond value, so a stored
  ISO-8601 timestamp string is modelled by the `Option Int` it denotes
  (`none` when the stored text does not parse as a date).
- `localStorage` is a record of the three keys the code uses.  A stored
  JSON string either parses to a typed value (`StoredJson.ok`) or makes
  `JSON.parse` throw (`StoredJson.malformed`).
- The host environment is an `Env`: `hasWindow` is the
  `typeof window !== undefined` check; `accessThrows` models a storage
  API whose every call throws (storage unavailable); `quotaExceeded`
  models `setItem` throwing (quota).  The source's try/catch blocks are
  compiled into the corresponding fallback branches.
- `Math.random`-based UUID generation is modelled by an explicit supply
  `Nat → String` together with a draw counter, so randomness is an
  oracle parameter.
-/

/-- A JavaScript Date, as its millisecond time value; `none` is Invalid Date. -/
abbrev DateVal := Option Int

/-- `new Date(x) < new Date()` in the source: an Invalid Date compares
false against anything (NaN comparison), a valid date compares by time value. -/
def dateLtNow (d : DateVal) (now : Int) : Bool :=
  match d with
  | some t => t < now
  | none => false

structure Citation where
  id : String
  chapter : String
  section_ : Option String
  content_excerpt : String
  relevance : Int
deriving DecidableEq

inductive MsgType
  | user
  | assistant
  | error
deriving DecidableEq

structure ChatMessage where
  id : String
  type : MsgType
  content : String
  sources : Option (List Citation)
  confidence : Option Int
  timestamp : DateVal
deriving DecidableEq

structure ChatSession where
  id : String
  anonymous_browser_id : String
  created_at : DateVal
  expires_at : DateVal
  page_context : Option String
deriving DecidableEq

/-- A message as it sits in localStorage: same fields, with the timestamp
field holding the date value denoted by the stored ISO-8601 string
(`none` when that stored text does not parse as a date). -/
structure StoredMessage where
  id : String
  type : MsgType
  content : String
  sources : Option (List Citation)
  confidence : Option Int
  timestamp : Option Int
deriving DecidableEq

/-- A stored JSON string: it either parses to an `α`-shaped value or
`JSON.parse` throws on it. -/
inductive StoredJson (α : Type)
  | ok (a : α)
  | malformed
deriving DecidableEq

/-- The three localStorage keys the code uses:
`rag_chatbot_session`, `rag_chatbot_history`, `rag_chatbot_browser_id`. -/
structure Storage where
  session : Option (StoredJson ChatSession)
  history : Option (StoredJson (List StoredMessage))
  browserId : Option String
deriving DecidableEq

/-- Host environment for the storage code. -/
structure Env where
  hasWindow : Bool
  accessThrows : Bool
  quotaExceeded : Bool
deriving DecidableEq

def SESSION_EXPIRY_DAYS : Int := 30

/-- SessionManager state: the storage plus the position in the UUID
supply (how many UUIDs have been drawn so far). -/
structure SMState where
  store : Storage
  ctr : Nat
deriving DecidableEq

/-- `generateUUID()`: draw the next identifier from the supply. -/
def genUUID (supply : Nat → String) (s : SMState) : String × SMState :=
  (supply s.ctr, { s with ctr := s.ctr + 1 })

/-- `SessionManager.getSession()`.  Returns null outside a browser; the
try/catch turns a throwing `localStorage.getItem` or `JSON.parse` into
null; an expired stored session is removed (both keys) before returning
null. -/
def getSession (env : Env) (now : Int) (st : Storage) :
    Option ChatSession × Storage :=
  if env.hasWindow = false then (none, st)
  else if env.accessThrows then (none, st)
  else
    match st.session with
    | none => (none, st)
    | some .malformed => (none, st)
    | some (.ok session) =>
      if dateLtNow session.expires_at now then
        (none, { st with session := none, history := none })
      else
        (some session, st)

/-- `SessionManager.getOrCreateBrowserId()`.  Outside a browser, or when
the storage access throws, a fresh UUID is returned without persisting;
a quota failure on the write makes the catch block return a second fresh
UUID (the source draws again in the catch). -/
def getOrCreateBrowserId (env : Env) (supply : Nat → String) (s : SMState) :
    String × SMState :=
  if env.hasWindow = false then genUUID supply s
  else if env.accessThrows then genUUID supply s
  else
    match s.store.browserId with
    | some b => (b, s)
    | none =>
      let (u, s1) := genUUID supply s
      if env.quotaExceeded then genUUID supply s1
      else (u, { s1 with store := { s1.store with browserId := some u } })

/-- `SessionManager.createSession(pageContext?)`.  Field evaluation order
follows the object literal: the session id is drawn before the browser id
is fetched.  The session is persisted (overwriting any previous one) only
in a browser whose storage write succeeds; the write failure is swallowed. -/
def createSession (env : Env) (supply : Nat → String) (now : Int)
    (pageContext : Option String) (s : SMState) : ChatSession × SMState :=
  let expiresAt : Int := now + SESSION_EXPIRY_DAYS * 24 * 60 * 60 * 1000
  let (sid, s1) := genUUID supply s
  let (bid, s2) := getOrCreateBrowserId env supply s1
  let session : ChatSession :=
    { id := sid, anonymous_browser_id := bid, created_at := some now,
      expires_at := some expiresAt, page_context := pageContext }
  if env.hasWindow && !(env.accessThrows || env.quotaExceeded) then
    (session, { s2 with store := { s2.store with session := some (.ok session) } })
  else
    (session, s2)

/-- The `messages.map` body in `saveConversation`: `toISOString` throws a
RangeError on an Invalid Date, aborting the whole map (and hence the save). -/
def serializeMessages : List ChatMessage → Except Unit (List StoredMessage)
  | [] => .ok []
  | m :: rest =>
    match m.timestamp with
    | none => .error ()
    | some t =>
      match serializeMessages rest with
      | .error e => .error e
      | .ok tail =>
        .ok ({ id := m.id, type := m.type, content := m.content,
               sources := m.sources, confidence := m.confidence,
               timestamp := some t } :: tail)

/-- `SessionManager.saveConversation(messages)`: serialize the full list
(timestamps to ISO strings) and persist it, replacing prior content; any
serialization or write failure is swallowed, leaving storage unchanged. -/
def saveConversation (env : Env) (msgs : List ChatMessage) (st : Storage) :
    Storage :=
  if env.hasWindow = false then st
  else
    match serializeMessages msgs with
    | .error _ => st
    | .ok ser =>
      if env.accessThrows || env.quotaExceeded then st
      else { st with history := some (.ok ser) }

/-- `new Date(msg.timestamp)` during rehydration: the stored text's date
value, Invalid Date when it does not parse. -/
def rehydrateMessage (m : StoredMessage) : ChatMessage :=
  { id := m.id, type := m.type, content := m.content, sources := m.sources,
    confidence := m.confidence, timestamp := m.timestamp }

/-- `SessionManager.getConversationHistory()`: null outside a browser, on
a throwing read, when nothing is stored, or when the stored JSON does not
parse; otherwise the stored messages with timestamps rehydrated. -/
def getConversationHistory (env : Env) (st : Storage) :
    Option (List ChatMessage) :=
  if env.hasWindow = false then none
  else if env.accessThrows then none
  else
    match st.history with
    | none => none
    | some .malformed => none
    | some (.ok ser) => some (ser.map rehydrateMessage)

/-- `SessionManager.clearConversation()`: removes only the history key. -/
def clearConversation (env : Env) (st : Storage) : Storage :=
  if env.hasWindow = false then st
  else if env.accessThrows then st
  else { st with history := none }

/-- `SessionManager.deleteSession()`: removes both session and history keys. -/
def deleteSession (env : Env) (st : Storage) : Storage :=
  if env.hasWindow = false then st
  else if env.accessThrows then st
  else { st with session := none, history := none }

/-! ### ChatAPI (Query Client) -/

structure QueryResponse where
  answer : String
  sources : List Citation
  session_id : String
  message_id : String
  confidence : Int
deriving DecidableEq

/-- The shape of an HTTP response as the error-handling code observes it:
success flag, status, the Retry-After header if present, the body's
`detail` field when the body parses to an object carrying one, and the
success-body denotation. -/
structure HttpResponse where
  ok : Bool
  status : Nat
  retryAfter : Option String
  errorDetail : Option String
  body : QueryResponse
deriving DecidableEq

/-- One outgoing request to the answering backend. -/
inductive ApiRequest
  | chatQuery (question session_id : String) (page_context : Option String)
  | chatSelection (selected_text question session_id chapter sectionArg : String)
deriving DecidableEq

/-- JavaScript truthiness of a possibly-absent string, as used by
`x || fallback`: absent or empty falls back. -/
def strOrElse (x : Option String) (fallback : String) : String :=
  match x with
  | some s => if s = "" then fallback else s
  | none => fallback

/-- The non-success branch of `ChatAPI.query`: 429 becomes the rate-limit
message built from the Retry-After header (default "60"); any other
status becomes the body's detail message if truthy, else the generic
status-coded message. -/
def queryResult (response : HttpResponse) : Except String QueryResponse :=
  if response.ok = false then
    if response.status = 429 then
      .error ("Rate limited. Please try again in " ++
        strOrElse response.retryAfter "60" ++ " seconds.")
    else
      .error (strOrElse response.errorDetail
        ("API error: " ++ toString response.status))
  else
    .ok response.body

/-- The non-success branch of `ChatAPI.querySelection`; the source
duplicates `query`'s classification verbatim. -/
def querySelectionResult (response : HttpResponse) : Except String QueryResponse :=
  if response.ok = false then
    if response.status = 429 then
      .error ("Rate limited. Please try again in " ++
        strOrElse response.retryAfter "60" ++ " seconds.")
    else
      .error (strOrElse response.errorDetail
        ("API error: " ++ toString response.status))
  else
    .ok response.body

/-- `ChatAPI.query`: issues exactly one fetch (no retry loop) and maps its
single response through the classification. -/
def queryCall (question sessionId : String) (pageContext : Option String)
    (response : HttpResponse) : List ApiRequest × Except String QueryResponse :=
  ([.chatQuery question sessionId pageContext], queryResult response)

/-- `ChatAPI.querySelection`: issues exactly one fetch (no retry loop);
the request body sends `section || the empty string`. -/
def querySelectionCall (selectedText question sessionId chapter : String)
    (sectionOpt : Option String) (response : HttpResponse) :
    List ApiRequest × Except String QueryResponse :=
  ([.chatSelection selectedText question sessionId chapter
      (strOrElse sectionOpt "")], querySelectionResult response)

/-! ### ChatWidget (Widget Controller) -/

/-- The closure state a pending `handleSend` invocation carries across its
await point: the `messages` array captured when the callback was created,
the optimistic user message it appended, and the selection context. -/
structure PendingSend where
  capturedMessages : List ChatMessage
  userMessage : ChatMessage
  capturedSelected : String
  useSelection : Bool
deriving DecidableEq

structure WidgetState where
  messages : List ChatMessage
  isLoading : Bool
  isOpen : Bool
  inputValue : String
  selectedText : String
  session : Option ChatSession
  showMenu : Bool
  pending : List PendingSend
  sm : SMState
deriving DecidableEq

/-- `window.location.pathname.split(sep)[2] || Unknown` with sep the slash. -/
def chapterOfPath (p : String) : String :=
  let seg := (p.splitOn "/").getD 2 ""
  if seg = "" then "Unknown" else seg

/-- The synchronous prefix of `handleSend` up to and including issuing the
fetch: guard empty input / missing session, clear the input box, append
the optimistic user message, set the loading flag, and record the
outstanding request (the emitted `ApiRequest` list is the network calls
issued). -/
def handleSendStart (now : Int) (pathname : String) (question : String)
    (useSelection : Bool) (st : WidgetState) : WidgetState × List ApiRequest :=
  if question.trim = "" then (st, [])
  else
    match st.session with
    | none => (st, [])
    | some session =>
      let userMessage : ChatMessage :=
        { id := toString now, type := .user, content := question,
          sources := none, confidence := none, timestamp := some now }
      let call : ApiRequest :=
        if useSelection && !(st.selectedText = "") then
          .chatSelection st.selectedText question session.id
            (chapterOfPath pathname) ""
        else
          .chatQuery question session.id (some pathname)
      let p : PendingSend :=
        { capturedMessages := st.messages, userMessage := userMessage,
          capturedSelected := st.selectedText, useSelection := useSelection }
      ({ st with inputValue := "",
                 messages := st.messages ++ [userMessage],
                 isLoading := true,
                 pending := st.pending ++ [p] }, [call])

/-- The success continuation of `handleSend`: append the assistant message
built from the response, persist the captured list plus the user and
assistant turns, clear the selection, drop the loading flag. -/
def handleSendSuccess (env : Env) (now : Int) (resp : QueryResponse)
    (st : WidgetState) : WidgetState :=
  match st.pending with
  | [] => st
  | p :: rest =>
    let assistantMessage : ChatMessage :=
      { id := resp.message_id, type := .assistant, content := resp.answer,
        sources := some resp.sources, confidence := some resp.confidence,
        timestamp := some now }
    let newStore := saveConversation env
      (p.capturedMessages ++ [p.userMessage, assistantMessage]) st.sm.store
    { st with messages := st.messages ++ [assistantMessage],
              sm := { st.sm with store := newStore },
              selectedText := "",
              isLoading := false,
              pending := rest }

/-- The catch branch of `handleSend`: append one error-type message with
the failure's description; nothing is persisted and the selection is kept. -/
def handleSendError (now : Int) (emsg : String) (st : WidgetState) :
    WidgetState :=
  match st.pending with
  | [] => st
  | _ :: rest =>
    let errorMessage : ChatMessage :=
      { id := "error-" ++ toString now, type := .error, content := emsg,
        sources := none, confidence := none, timestamp := some now }
    { st with messages := st.messages ++ [errorMessage],
              isLoading := false,
              pending := rest }

/-- A send attempt through the UI controls: the send button is disabled
while loading or on blank input, and the textarea (Enter key) is disabled
while loading, so an attempt during loading or with blank input does
nothing; otherwise `handleSend(inputValue)` runs. -/
def uiSendAttempt (now : Int) (pathname : String) (st : WidgetState) :
    WidgetState × List ApiRequest :=
  if st.isLoading || st.inputValue.trim = "" then (st, [])
  else handleSendStart now pathname st.inputValue false st

/-- `handleClearHistory` after the user confirms: empty the in-memory
list, delete the persisted history, close the menu. -/
def handleClearHistoryC (env : Env) (st : WidgetState) : WidgetState :=
  { st with messages := [],
            sm := { st.sm with store := clearConversation env st.sm.store },
            showMenu := false }

/-- `handleNewSession` after the user confirms: create (and persist) a new
session, empty the in-memory list, clear the selection, close the menu.
Note the persisted history is not cleared here. -/
def handleNewSessionC (env : Env) (supply : Nat → String) (now : Int)
    (st : WidgetState) : WidgetState :=
  let (ns, sm2) := createSession env supply now none st.sm
  { st with session := some ns, messages := [], selectedText := "",
            showMenu := false, sm := sm2 }

/-- The textarea onChange (disabled while loading): input capped at 500. -/
def uiSetInput (s : String) (st : WidgetState) : WidgetState :=
  if st.isLoading then st else { st with inputValue := s.take 500 }

/-- The document-wide mouseup listener: a trimmed selection longer than 10
characters becomes the active selection. -/
def captureSelection (s : String) (st : WidgetState) : WidgetState :=
  let t := s.trim
  if !(t = "") && t.length > 10 then { st with selectedText := t } else st

/-- The widget's externally-driven events. -/
inductive WOp
  | sendAttempt (now : Int) (pathname : String)
  | deliverSuccess (now : Int) (resp : QueryResponse)
  | deliverError (now : Int) (emsg : String)
  | clearHistory
  | newSession (now : Int)
  | setInput (s : String)
  | toggleOpen
  | select (s : String)

def stepW (env : Env) (supply : Nat → String) (st : WidgetState) :
    WOp → WidgetState × List ApiRequest
  | .sendAttempt now pathname => uiSendAttempt now pathname st
  | .deliverSuccess now resp => (handleSendSuccess env now resp st, [])
  | .deliverError now emsg => (handleSendError now emsg st, [])
  | .clearHistory => (handleClearHistoryC env st, [])
  | .newSession now => (handleNewSessionC env supply now st, [])
  | .setInput s => (uiSetInput s st, [])
  | .toggleOpen => ({ st with isOpen := !st.isOpen }, [])
  | .select s => (captureSelection s st, [])

def runW (env : Env) (supply : Nat → String) (st : WidgetState) :
    List WOp → WidgetState
  | [] => st
  | op :: ops => runW env supply (stepW env supply st op).1 ops

/-- The widget mount effect: restore or create the session, then load any
saved conversation into the (initially empty) message list. -/
def initWidget (env : Env) (supply : Nat → String) (now : Int)
    (sm0 : SMState) : WidgetState :=
  let (sessOpt, store1) := getSession env now sm0.store
  let sm1 : SMState := { store := store1, ctr := sm0.ctr }
  let (sess, sm2) :=
    match sessOpt with
    | some s => (s, sm1)
    | none => createSession env supply now none sm1
  let msgs := (getConversationHistory env sm2.store).getD []
  { messages := msgs, isLoading := false, isOpen := false, inputValue := "",
    selectedText := "", session := some sess, showMenu := false,
    pending := [], sm := sm2 }

/-! ### Shared helper definitions and lemmas -/

/-- A browser environment with working storage. -/
def envBrowser : Env := { hasWindow := true, accessThrows := false, quotaExceeded := false }

/-- A non-browser (server-side rendering) environment. -/
def envSSR : Env := { hasWindow := false, accessThrows := false, quotaExceeded := false }

/-- Empty localStorage. -/
def emptyStore : Storage := { session := none, history := none, browserId := none }

/-- A deterministic UUID supply used in concrete witnesses. -/
def uuidSupply : Nat → String := fun n => toString n

/-- A concrete session used to witness C8. -/
def c8Session : ChatSession :=
  { id := "s", anonymous_browser_id := "b", created_at := some 0,
    expires_at := some 99, page_context := none }

/-- A concrete widget state used to witness C8. -/
def c8State : WidgetState :=
  { messages := [{ id := "1", type := .user, content := "hi", sources := none,
                   confidence := none, timestamp := some 5 }],
    isLoading := false, isOpen := true, inputValue := "", selectedText := "",
    session := some c8Session,
    showMenu := true, pending := [],
    sm := { store := { session := some (.ok c8Session),
                       history := some (.ok []), browserId := some "b" },
            ctr := 0 } }

/-- A stored session whose expires_at field does not parse as a date. -/
def c10Session : ChatSession :=
  { id := "sid", anonymous_browser_id := "bid", created_at := some 0,
    expires_at := none, page_context := none }

def c10Store : Storage :=
  { session := some (.ok c10Session), history := some (.ok []),
    browserId := none }

/-- The session used in the C1 counterexample: it expires at time 1000. -/
def c1Session : ChatSession :=
  { id := "sid", anonymous_browser_id := "bid", created_at := some 0,
    expires_at := some 1000, page_context := none }

def c1Store : Storage :=
  { session := some (.ok c1Session), history := none, browserId := none }

/-- The serialization discipline of the send path: at most one query
outstanding, and the loading flag tracks it exactly. -/
def singleFlightInv (st : WidgetState) : Prop :=
  st.pending.length ≤ 1 ∧ (st.isLoading = true ↔ st.pending ≠ [])

def pendingDemo : PendingSend :=
  { capturedMessages := [],
    userMessage := { id := "10", type := .user, content := "q",
                     sources := none, confidence := none,
                     timestamp := some 10 },
    capturedSelected := "", useSelection := false }

/-- A widget state with one send in flight. -/
def wLoaded : WidgetState :=
  { messages := [pendingDemo.userMessage], isLoading := true, isOpen := true,
    inputValue := "", selectedText := "", session := some c8Session,
    showMenu := false, pending := [pendingDemo],
    sm := { store := emptyStore, ctr := 2 } }

/-- The widget state after the failed-send operation is applied to a
state with one send in flight (the state `handleSendStart` produces from
an idle widget with nothing persisted yet). -/
def c6Final : WidgetState := handleSendError 2000 "API error: 500" wLoaded

def demoResp : QueryResponse :=
  { answer := "ans", sources := [], session_id := "s", message_id := "m7",
    confidence := 5 }

lemma serializeMessages_roundtrip (msgs : List ChatMessage)
    (hts : ∀ m ∈ msgs, m.timestamp ≠ none) :
    ∃ ser, serializeMessages msgs = .ok ser ∧ ser.map rehydrateMessage = msgs := by
  induction msgs with
  | nil => exact ⟨[], rfl, rfl⟩
  | cons m rest ih =>
    obtain ⟨ser, hser, hmap⟩ := ih (fun x hx => hts x (List.mem_cons_of_mem m hx))
    have hm := hts m (List.mem_cons_self m rest)
    cases hmts : m.timestamp with
    | none => exact absurd hmts hm
    | some t =>
      refine ⟨{ id := m.id, type := m.type, content := m.content,
                sources := m.sources, confidence := m.confidence,
                timestamp := some t } :: ser, ?_, ?_⟩
      · simp [serializeMessages, hmts, hser]
      · simp only [List.map_cons, hmap, rehydrateMessage]
        cases m
        simp_all

lemma save_get_roundtrip (env : Env) (msgs : List ChatMessage) (st : Storage)
    (hw : env.hasWindow = true) (ha : env.accessThrows = false)
    (hq : env.quotaExceeded = false)
    (hts : ∀ m ∈ msgs, m.timestamp ≠ none) :
    getConversationHistory env (saveConversation env msgs st) = some msgs := by
  obtain ⟨ser, hser, hmap⟩ := serializeMessages_roundtrip msgs hts
  simp [saveConversation, getConversationHistory, hw, ha, hq, hser, hmap]

/-! ### Claims -/

/-- C3: for every non-success HTTP response to query or querySelection,
status 429 fails with a message naming the retry delay from the
Retry-After header (header "30" yields a message containing "30 seconds",
an absent header yields "60 seconds"); any other status fails with the
server-supplied detail when present (truthy), otherwise the generic
message "API error: status"; and each call issues exactly one request
(no retries). -/
theorem C3_error_classification (q sid ss ch : String) (pc : Option String)
    (secOpt : Option String) (r : HttpResponse) (hok : r.ok = false) :
    (queryCall q sid pc r).1.length = 1 ∧
    (querySelectionCall ss q sid ch secOpt r).1.length = 1 ∧
    (querySelectionCall ss q sid ch secOpt r).2 = (queryCall q sid pc r).2 ∧
    (r.status = 429 → r.retryAfter = some "30" →
      ∃ pre post, (queryCall q sid pc r).2 = .error (pre ++ "30 seconds" ++ post)) ∧
    (r.status = 429 → r.retryAfter = none →
      ∃ pre post, (queryCall q sid pc r).2 = .error (pre ++ "60 seconds" ++ post)) ∧
    (r.status ≠ 429 → ∀ d, r.errorDetail = some d → d ≠ "" →
      (queryCall q sid pc r).2 = .error d) ∧
    (r.status ≠ 429 → (r.errorDetail = none ∨ r.errorDetail = some "") →
      (queryCall q sid pc r).2 = .error ("API error: " ++ toString r.status)) := by
  refine ⟨rfl, rfl, ?_, ?_, ?_, ?_, ?_⟩
  · simp [queryCall, querySelectionCall, queryResult, querySelectionResult]
  · intro h429 hra
    refine ⟨"Rate limited. Please try again in ", ".", ?_⟩
    simp [queryCall, queryResult, hok, h429, hra, strOrElse]
  · intro h429 hra
    refine ⟨"Rate limited. Please try again in ", ".", ?_⟩
    simp [queryCall, queryResult, hok, h429, hra, strOrElse]
  · intro h429 d hd hne
    simp [queryCall, queryResult, hok, h429, hd, hne, strOrElse]
  · intro h429 hd
    rcases hd with hd | hd <;>
      simp [queryCall, queryResult, hok, h429, hd, strOrElse]

theorem C3_witness :
    ∃ pre post,
      (queryCall "why" "sid" none
        { ok := false, status := 429, retryAfter := some "30",
          errorDetail := none,
          body := { answer := "", sources := [], session_id := "",
                    message_id := "", confidence := 0 } }).2 =
        .error (pre ++ "30 seconds" ++ post) :=
  (C3_error_classification "why" "sid" "sel" "ch" none none
    { ok := false, status := 429, retryAfter := some "30", errorDetail := none,
      body := { answer := "", sources := [], session_id := "",
                message_id := "", confidence := 0 } } rfl).2.2.2.1 rfl rfl

/-- C4: saving a conversation and reading it back with no intervening
writes returns a list equal to the input in content, order and timestamp
values (each valid timestamp round-trips through its ISO-8601 string),
in a browser whose storage works. -/
theorem C4_roundtrip (env : Env) (msgs : List ChatMessage) (st : Storage)
    (hw : env.hasWindow = true) (ha : env.accessThrows = false)
    (hq : env.quotaExceeded = false)
    (hts : ∀ m ∈ msgs, m.timestamp ≠ none) :
    getConversationHistory env (saveConversation env msgs st) = some msgs :=
  save_get_roundtrip env msgs st hw ha hq hts

theorem C4_witness :
    getConversationHistory envBrowser
      (saveConversation envBrowser
        [{ id := "1", type := .user, content := "hi", sources := none,
           confidence := none, timestamp := some 5 },
         { id := "2", type := .assistant, content := "yo",
           sources := some [], confidence := some 9, timestamp := some 7 }]
        emptyStore) =
      some
        [{ id := "1", type := .user, content := "hi", sources := none,
           confidence := none, timestamp := some 5 },
         { id := "2", type := .assistant, content := "yo",
           sources := some [], confidence := some 9, timestamp := some 7 }] :=
  C4_roundtrip envBrowser _ emptyStore rfl rfl rfl (by decide)

/-- C8: the confirmed Clear History action empties the in-memory list and
deletes only the persisted message list; the persisted session record
(hence its expiry) and the browser identifier are untouched. -/
theorem C8_clear_history_frame (env : Env) (st : WidgetState) :
    (handleClearHistoryC env st).messages = [] ∧
    (handleClearHistoryC env st).session = st.session ∧
    (handleClearHistoryC env st).sm.store.session = st.sm.store.session ∧
    (handleClearHistoryC env st).sm.store.browserId = st.sm.store.browserId ∧
    (env.hasWindow = true → env.accessThrows = false →
      (handleClearHistoryC env st).sm.store.history = none) := by
  refine ⟨rfl, rfl, ?_, ?_, ?_⟩ <;>
    simp [handleClearHistoryC, clearConversation] <;>
    cases hw : env.hasWindow <;> cases ha : env.accessThrows <;> simp_all

/-- C10: a stored session whose expires_at does not parse as a date is
treated as unexpired for every current time: getSession returns it and
deletes nothing. -/
theorem C10_unparseable_expiry (env : Env) (now : Int) (st : Storage)
    (s : ChatSession) (hw : env.hasWindow = true)
    (ha : env.accessThrows = false)
    (hs : st.session = some (.ok s)) (he : s.expires_at = none) :
    getSession env now st = (some s, st) := by
  simp [getSession, hw, ha, hs, dateLtNow, he]

theorem C8_witness :
    (handleClearHistoryC envBrowser c8State).messages = [] ∧
    (handleClearHistoryC envBrowser c8State).session = c8State.session ∧
    (handleClearHistoryC envBrowser c8State).sm.store.session =
      c8State.sm.store.session ∧
    (handleClearHistoryC envBrowser c8State).sm.store.browserId =
      c8State.sm.store.browserId ∧
    (handleClearHistoryC envBrowser c8State).sm.store.history = none := by
  have h := C8_clear_history_frame envBrowser c8State
  exact ⟨h.1, h.2.1, h.2.2.1, h.2.2.2.1, h.2.2.2.2 rfl rfl⟩

theorem C10_witness :
    getSession envBrowser 123456789 c10Store = (some c10Session, c10Store) :=
  C10_unparseable_expiry envBrowser 123456789 c10Store c10Session
    rfl rfl rfl rfl

/-- C1 counterexample: at the exact expiry instant (current time equal to
expires_at) the stored session is still returned, although the current
time is not before expires_at — the code expires with a strict
comparison, so the claim "returns it only while the current time is
before its expires_at" fails at this input. -/
theorem C1_counterexample :
    (getSession envBrowser 1000 c1Store).1 = some c1Session ∧
    ¬ (∃ t : Int, c1Session.expires_at = some t ∧ 1000 < t) := by
  constructor
  · decide
  · rintro ⟨t, ht, hlt⟩
    have : t = 1000 := by
      simpa [c1Session] using ht.symm
    omega

/-- C1 (amended): getSession returns the stored session exactly when its
expires_at does not parse to a time strictly earlier than the current
time (so it is still returned at the exact expiry instant and when
expires_at is unparseable); whenever expires_at parses to a time
strictly in the past, both the session record and the conversation
record are deleted and absence is returned. -/
theorem C1_expiry (env : Env) (now : Int) (st : Storage) (session : ChatSession)
    (hw : env.hasWindow = true) (ha : env.accessThrows = false)
    (hs : st.session = some (.ok session)) :
    (∀ t, session.expires_at = some t → t < now →
      getSession env now st = (none, { st with session := none, history := none })) ∧
    (∀ s, (getSession env now st).1 = some s →
      s = session ∧ ¬ ∃ t, session.expires_at = some t ∧ t < now) ∧
    ((¬ ∃ t, session.expires_at = some t ∧ t < now) →
      getSession env now st = (some session, st)) := by
  refine ⟨?_, ?_, ?_⟩
  · intro t ht hlt
    simp [getSession, hw, ha, hs, dateLtNow, ht, hlt]
  · intro s hret
    cases hexp : session.expires_at with
    | none =>
      refine ⟨?_, ?_⟩
      · have h2 : session = s := by
          simpa [getSession, hw, ha, hs, dateLtNow, hexp] using hret
        exact h2.symm
      · rintro ⟨t, ht, -⟩
        simp [hexp] at ht
    | some t =>
      by_cases hlt : t < now
      · exfalso
        simp [getSession, hw, ha, hs, dateLtNow, hexp, hlt] at hret
      · refine ⟨?_, ?_⟩
        · have h2 : session = s := by
            simpa [getSession, hw, ha, hs, dateLtNow, hexp, hlt] using hret
          exact h2.symm
        · rintro ⟨u, hu, hul⟩
          cases hu
          exact hlt hul
  · intro hne
    cases hexp : session.expires_at with
    | none => simp [getSession, hw, ha, hs, dateLtNow, hexp]
    | some t =>
      have hlt : ¬ t < now := fun h => hne ⟨t, hexp, h⟩
      simp [getSession, hw, ha, hs, dateLtNow, hexp, hlt]

theorem C1_witness :
    getSession envBrowser 2000 c1Store =
      (none, { c1Store with session := none, history := none }) :=
  (C1_expiry envBrowser 2000 c1Store c1Session rfl rfl rfl).1 1000 rfl
    (by omega)

/-- C5: createSession returns a session whose id is the next fresh
identifier drawn from the UUID supply, whose expires_at is creation time
plus exactly 30 days, and persists it, overwriting any previous session;
a second call in the same browser context reuses the same
anonymous_browser_id while the two session identifiers differ (provided
the UUID draws involved are distinct). -/
theorem C5_createSession (env : Env) (supply : Nat → String)
    (now now2 : Int) (pc pc2 : Option String) (s0 : SMState)
    (hw : env.hasWindow = true) (ha : env.accessThrows = false)
    (hq : env.quotaExceeded = false)
    (h01 : supply s0.ctr ≠ supply (s0.ctr + 1))
    (h02 : supply s0.ctr ≠ supply (s0.ctr + 2)) :
    (createSession env supply now pc s0).1.id = supply s0.ctr ∧
    (createSession env supply now pc s0).1.created_at = some now ∧
    (createSession env supply now pc s0).1.expires_at =
      some (now + 30 * 24 * 60 * 60 * 1000) ∧
    (createSession env supply now pc s0).2.store.session =
      some (.ok (createSession env supply now pc s0).1) ∧
    (createSession env supply now2 pc2
        (createSession env supply now pc s0).2).2.store.session =
      some (.ok (createSession env supply now2 pc2
        (createSession env supply now pc s0).2).1) ∧
    (createSession env supply now2 pc2
        (createSession env supply now pc s0).2).1.anonymous_browser_id =
      (createSession env supply now pc s0).1.anonymous_browser_id ∧
    (createSession env supply now2 pc2
        (createSession env supply now pc s0).2).1.id ≠
      (createSession env supply now pc s0).1.id := by
  cases hb : s0.store.browserId with
  | some b =>
    refine ⟨?_, ?_, ?_, ?_, ?_, ?_, ?_⟩ <;>
      simp [createSession, getOrCreateBrowserId, genUUID, hw, ha, hq, hb,
        SESSION_EXPIRY_DAYS]
    exact fun h => h01 h.symm
  | none =>
    refine ⟨?_, ?_, ?_, ?_, ?_, ?_, ?_⟩ <;>
      simp [createSession, getOrCreateBrowserId, genUUID, hw, ha, hq, hb,
        SESSION_EXPIRY_DAYS]
    exact fun h => h02 h.symm

theorem C5_witness :
    (createSession envBrowser uuidSupply 5 none
        (createSession envBrowser uuidSupply 0 none
          { store := emptyStore, ctr := 0 }).2).1.id ≠
      (createSession envBrowser uuidSupply 0 none
        { store := emptyStore, ctr := 0 }).1.id :=
  (C5_createSession envBrowser uuidSupply 0 5 none none
    { store := emptyStore, ctr := 0 } rfl rfl rfl (by decide)
    (by decide)).2.2.2.2.2.2

/-- C9 counterexample: in a non-browser context createSession does not
return absence — it returns a freshly built session object (here with
the first two supply draws as its identifiers and a full 30-day expiry),
merely skipping persistence; so "every operation is a no-op returning
absence" fails for createSession at this input. -/
theorem C9_counterexample :
    (createSession envSSR uuidSupply 0 none
        { store := emptyStore, ctr := 0 }).1 =
      { id := "0", anonymous_browser_id := "1", created_at := some 0,
        expires_at := some 2592000000, page_context := none } ∧
    (createSession envSSR uuidSupply 0 none
        { store := emptyStore, ctr := 0 }).2.store = emptyStore := by
  constructor <;> decide

/-- C9 (amended): no Session Store operation propagates an error — every
storage read/write/parse failure is swallowed: outside a browser, and
when every storage access throws, getSession and getConversationHistory
return absence and the write operations leave storage unchanged, while
createSession (whose return type is a session, not an optional) still
returns the freshly built session without persisting it; in a browser,
malformed persisted JSON reads as absence, and a quota-exceeded or
serialization failure makes the writes leave storage unchanged. -/
theorem C9_fail_soft (env : Env) (st : Storage) (now : Int)
    (msgs : List ChatMessage) (supply : Nat → String)
    (pc : Option String) (c : Nat) :
    (env.hasWindow = false →
      getSession env now st = (none, st) ∧
      getConversationHistory env st = none ∧
      saveConversation env msgs st = st ∧
      clearConversation env st = st ∧
      deleteSession env st = st ∧
      (createSession env supply now pc { store := st, ctr := c }).2.store = st) ∧
    (env.accessThrows = true →
      getSession env now st = (none, st) ∧
      getConversationHistory env st = none ∧
      saveConversation env msgs st = st ∧
      clearConversation env st = st ∧
      deleteSession env st = st ∧
      (createSession env supply now pc { store := st, ctr := c }).2.store = st) ∧
    (env.hasWindow = true → env.accessThrows = false →
      (st.session = some .malformed → getSession env now st = (none, st)) ∧
      (st.history = some .malformed → getConversationHistory env st = none) ∧
      (env.quotaExceeded = true →
        saveConversation env msgs st = st ∧
        (createSession env supply now pc { store := st, ctr := c }).2.store = st) ∧
      (serializeMessages msgs = .error () → saveConversation env msgs st = st)) := by
  refine ⟨?_, ?_, ?_⟩
  · intro hw
    refine ⟨?_, ?_, ?_, ?_, ?_, ?_⟩ <;>
      simp [getSession, getConversationHistory, saveConversation,
        clearConversation, deleteSession, createSession,
        getOrCreateBrowserId, genUUID, hw]
  · intro ha
    have hsave : saveConversation env msgs st = st := by
      cases hw : env.hasWindow <;>
        cases hm : serializeMessages msgs <;>
          simp [saveConversation, hw, ha, hm]
    refine ⟨?_, ?_, hsave, ?_, ?_, ?_⟩ <;>
      cases hw : env.hasWindow <;>
        simp [getSession, getConversationHistory,
          clearConversation, deleteSession, createSession,
          getOrCreateBrowserId, genUUID, hw, ha]
  · intro hw ha
    refine ⟨?_, ?_, ?_, ?_⟩
    · intro hs
      simp [getSession, hw, ha, hs]
    · intro hh
      simp [getConversationHistory, hw, ha, hh]
    · intro hq
      constructor
      · cases hm : serializeMessages msgs <;>
          simp [saveConversation, hw, ha, hq, hm]
      · cases hb : st.browserId <;>
          simp [createSession, getOrCreateBrowserId, genUUID, hw, ha, hq, hb]
    · intro hm
      simp [saveConversation, hw, hm]

theorem C9_witness :
    getSession envSSR 7 emptyStore = (none, emptyStore) ∧
    getConversationHistory envSSR emptyStore = none ∧
    saveConversation envSSR [] emptyStore = emptyStore ∧
    clearConversation envSSR emptyStore = emptyStore ∧
    deleteSession envSSR emptyStore = emptyStore ∧
    (createSession envSSR uuidSupply 7 none
      { store := emptyStore, ctr := 0 }).2.store = emptyStore :=
  (C9_fail_soft envSSR emptyStore 7 [] uuidSupply none 0).1 rfl

lemma initWidget_inv (env : Env) (supply : Nat → String) (now : Int)
    (sm0 : SMState) : singleFlightInv (initWidget env supply now sm0) := by
  constructor
  · show (initWidget env supply now sm0).pending.length ≤ 1
    simp [initWidget]
  · show (initWidget env supply now sm0).isLoading = true ↔ _
    simp [initWidget]

lemma stepW_inv (env : Env) (supply : Nat → String) (st : WidgetState)
    (op : WOp) (h : singleFlightInv st) :
    singleFlightInv (stepW env supply st op).1 := by
  cases op with
  | sendAttempt now path =>
    show singleFlightInv (uiSendAttempt now path st).1
    by_cases hl : st.isLoading = true
    · have hstep : uiSendAttempt now path st = (st, []) := by
        simp [uiSendAttempt, hl]
      rw [hstep]
      exact h
    · have hpe : st.pending = [] := by
        by_contra hne
        exact hl (h.2.2 hne)
      by_cases he : st.inputValue.trim = ""
      · have hstep : uiSendAttempt now path st = (st, []) := by
          simp [uiSendAttempt, hl, he]
        rw [hstep]
        exact h
      · have hstep : uiSendAttempt now path st =
            handleSendStart now path st.inputValue false st := by
          simp [uiSendAttempt, hl, he]
        rw [hstep]
        unfold handleSendStart
        rw [if_neg he]
        cases hs : st.session with
        | none => exact h
        | some s => simp [singleFlightInv, hpe]
  | deliverSuccess now resp =>
    show singleFlightInv (handleSendSuccess env now resp st)
    cases hp : st.pending with
    | nil =>
      have hstep : handleSendSuccess env now resp st = st := by
        simp [handleSendSuccess, hp]
      rw [hstep]
      exact h
    | cons p rest =>
      have hrest : rest = [] := by
        have hlen := h.1
        rw [hp] at hlen
        simpa using hlen
      subst hrest
      simp [singleFlightInv, handleSendSuccess, hp]
  | deliverError now emsg =>
    show singleFlightInv (handleSendError now emsg st)
    cases hp : st.pending with
    | nil =>
      have hstep : handleSendError now emsg st = st := by
        simp [handleSendError, hp]
      rw [hstep]
      exact h
    | cons p rest =>
      have hrest : rest = [] := by
        have hlen := h.1
        rw [hp] at hlen
        simpa using hlen
      subst hrest
      simp [singleFlightInv, handleSendError, hp]
  | clearHistory =>
    show singleFlightInv (handleClearHistoryC env st)
    simpa [singleFlightInv, handleClearHistoryC] using h
  | newSession now =>
    show singleFlightInv (handleNewSessionC env supply now st)
    simpa [singleFlightInv, handleNewSessionC] using h
  | setInput s =>
    show singleFlightInv (uiSetInput s st)
    cases hl : st.isLoading <;> simpa [singleFlightInv, uiSetInput, hl] using h
  | toggleOpen =>
    simpa [singleFlightInv, stepW] using h
  | select s =>
    show singleFlightInv (captureSelection s st)
    simp only [captureSelection]
    split
    · simpa [singleFlightInv] using h
    · exact h

lemma runW_inv (env : Env) (supply : Nat → String) (st : WidgetState)
    (ops : List WOp) (h : singleFlightInv st) :
    singleFlightInv (runW env supply st ops) := by
  induction ops generalizing st with
  | nil => exact h
  | cons op ops ih => exact ih _ (stepW_inv env supply st op h)

/-- C2: a send attempt issued while a previous send is still awaiting its
response is dropped — the widget state is unchanged (so no second
optimistic user message and nothing queued) and no network call is
issued — and in every state reachable from widget mount at most one
query is outstanding, with the loading flag tracking it exactly. -/
theorem C2_single_flight :
    (∀ (now : Int) (path : String) (st : WidgetState),
      st.isLoading = true → uiSendAttempt now path st = (st, [])) ∧
    (∀ (env : Env) (supply : Nat → String) (now : Int) (sm0 : SMState)
      (ops : List WOp),
      (runW env supply (initWidget env supply now sm0) ops).pending.length ≤ 1 ∧
      ((runW env supply (initWidget env supply now sm0) ops).isLoading = true ↔
        (runW env supply (initWidget env supply now sm0) ops).pending ≠ [])) := by
  constructor
  · intro now path st hl
    simp [uiSendAttempt, hl]
  · intro env supply now sm0 ops
    exact runW_inv env supply _ ops (initWidget_inv env supply now sm0)

theorem C2_witness : uiSendAttempt 0 "/p" wLoaded = (wLoaded, []) :=
  C2_single_flight.1 0 "/p" wLoaded rfl

/-- C6 counterexample: after a failed send the in-memory transcript holds
the optimistic user message and the error message, while the persisted
conversation cache was never written — so "after every operation the
persisted conversation cache equals the full transcript of the live
session" fails at this concrete input. -/
theorem C6_counterexample :
    getConversationHistory envBrowser c6Final.sm.store ≠ some c6Final.messages ∧
    c6Final.messages ≠ [] := by
  constructor <;> decide

/-- C6 (amended): every widget operation either appends messages to the
end of the in-memory list or clears it entirely (messages are never
reordered, removed individually, or mutated); after a successful send
that completes undisturbed the persisted cache equals the full
transcript; a failed send leaves the persisted cache unchanged, so the
optimistic user message and the error message live only in memory. -/
theorem C6_append_or_clear :
    (∀ (env : Env) (supply : Nat → String) (st : WidgetState) (op : WOp),
      (stepW env supply st op).1.messages = [] ∨
      ∃ tail, (stepW env supply st op).1.messages = st.messages ++ tail) ∧
    (∀ (env : Env) (now : Int) (resp : QueryResponse) (st : WidgetState)
      (p : PendingSend) (rest : List PendingSend),
      env.hasWindow = true → env.accessThrows = false →
      env.quotaExceeded = false →
      st.pending = p :: rest →
      st.messages = p.capturedMessages ++ [p.userMessage] →
      (∀ m ∈ p.capturedMessages, m.timestamp ≠ none) →
      p.userMessage.timestamp ≠ none →
      getConversationHistory env (handleSendSuccess env now resp st).sm.store =
        some (handleSendSuccess env now resp st).messages) ∧
    (∀ (now : Int) (emsg : String) (st : WidgetState) (p : PendingSend)
      (rest : List PendingSend), st.pending = p :: rest →
      (handleSendError now emsg st).sm.store = st.sm.store) := by
  refine ⟨?_, ?_, ?_⟩
  · intro env supply st op
    cases op with
    | sendAttempt now path =>
      simp only [stepW]
      unfold uiSendAttempt
      split
      · exact Or.inr ⟨[], by simp⟩
      · unfold handleSendStart
        split
        · exact Or.inr ⟨[], by simp⟩
        · cases st.session with
          | none => exact Or.inr ⟨[], by simp⟩
          | some s => exact Or.inr ⟨_, rfl⟩
    | deliverSuccess now resp =>
      simp only [stepW]
      unfold handleSendSuccess
      cases st.pending with
      | nil => exact Or.inr ⟨[], by simp⟩
      | cons p rest => exact Or.inr ⟨_, rfl⟩
    | deliverError now emsg =>
      simp only [stepW]
      unfold handleSendError
      cases st.pending with
      | nil => exact Or.inr ⟨[], by simp⟩
      | cons p rest => exact Or.inr ⟨_, rfl⟩
    | clearHistory => exact Or.inl rfl
    | newSession now => exact Or.inl rfl
    | setInput s =>
      simp only [stepW]
      unfold uiSetInput
      split <;> exact Or.inr ⟨[], by simp⟩
    | toggleOpen => exact Or.inr ⟨[], by simp [stepW]⟩
    | select s =>
      simp only [stepW]
      simp only [captureSelection]
      split <;> exact Or.inr ⟨[], by simp⟩
  · intro env now resp st p rest hw ha hq hp hmsgs hcap huser
    obtain ⟨msgs, il, io, iv, sel, sess, menu, pend, smst⟩ := st
    simp only at hp hmsgs
    subst hp
    subst hmsgs
    simp only [handleSendSuccess]
    rw [save_get_roundtrip env _ _ hw ha hq]
    · simp
    · intro m hm
      rcases List.mem_append.1 hm with hmem | hmem
      · exact hcap m hmem
      · simp only [List.mem_cons, List.mem_singleton] at hmem
        rcases hmem with rfl | rfl | hfalse
        · exact huser
        · simp
        · exact absurd hfalse (List.not_mem_nil m)
  · intro now emsg st p rest hp
    obtain ⟨msgs, il, io, iv, sel, sess, menu, pend, smst⟩ := st
    simp only at hp
    subst hp
    simp [handleSendError]

theorem C6_witness :
    getConversationHistory envBrowser
      (handleSendSuccess envBrowser 20 demoResp wLoaded).sm.store =
      some (handleSendSuccess envBrowser 20 demoResp wLoaded).messages :=
  C6_append_or_clear.2.1 envBrowser 20 demoResp wLoaded pendingDemo []
    rfl rfl rfl rfl rfl (by decide) (by decide)

/-- C7: when a send's network call fails, exactly one error-type message
carrying the failure's description is appended to the in-memory list,
nothing else changes (in particular no assistant-type message is added),
and neither the send nor its failure writes persisted conversation
state. -/
theorem C7_error_append :
    (∀ (now : Int) (path q : String) (useSel : Bool) (st : WidgetState),
      (handleSendStart now path q useSel st).1.sm.store = st.sm.store) ∧
    (∀ (now : Int) (emsg : String) (st : WidgetState) (p : PendingSend)
      (rest : List PendingSend), st.pending = p :: rest →
      handleSendError now emsg st = { st with
        messages := st.messages ++
          [{ id := "error-" ++ toString now, type := .error, content := emsg,
             sources := none, confidence := none, timestamp := some now }],
        isLoading := false, pending := rest }) := by
  constructor
  · intro now path q useSel st
    unfold handleSendStart
    split
    · rfl
    · cases st.session with
      | none => rfl
      | some s => rfl
  · intro now emsg st p rest hp
    obtain ⟨msgs, il, io, iv, sel, sess, menu, pend, smst⟩ := st
    simp only at hp
    subst hp
    simp [handleSendError]

theorem C7_witness :
    handleSendError 99 "API error: 500" wLoaded = { wLoaded with
      messages := wLoaded.messages ++
        [{ id := "error-" ++ toString (99 : Int), type := .error,
           content := "API error: 500", sources := none, confidence := none,
           timestamp := some 99 }],
      isLoading := false, pending := [] } :=
  C7_error_append.2 99 "API error: 500" wLoaded pendingDemo [] rfl
